import Mathlib

/-!
Shallow embedding of the learning core of the `three_agent_gui` repository:
the adaptive prompt-variant population (`AdaptivePromptSystem.ts`), the
speaker-selection strategies (`ConversationManager.ts`) and the conversation
analyzer (`ConversationAnalyzer.ts`).

Numbers are embedded as rationals.  The two transcendental helpers of the
source (`Math.sqrt` inside the confidence-interval computation and the
`sqrt(2*ln(total)/n)` UCB bonus) are threaded through as explicit function
parameters (`sq`, `ucbBonus`): every theorem below is proved for all values
of these parameters, so nothing depends on their actual analytic form.
`Math.random()` draws and `Date.now()` timestamps are likewise explicit
parameters, mirroring the call sites of the source one draw at a time.
-/

/-- The three conversational roles (`RoleKey` in `types.ts`):
`boke` is the initiator, `tsukkomi` the reactor, `director` the moderator. -/
inductive RoleKey where
  | boke
  | tsukkomi
  | director
deriving DecidableEq, Repr

/-- String form of a role key, as used in variant ids. -/
def RoleKey.str : RoleKey → String
  | .boke => "boke"
  | .tsukkomi => "tsukkomi"
  | .director => "director"

/-- Fixed iteration order over the three roles (the source iterates the
`Map` values in insertion order; the map only ever holds these keys). -/
def roleList : List RoleKey := [.boke, .tsukkomi, .director]

/-- Model of `UserRating` of `AdaptivePromptSystem.ts`. -/
structure UserRating where
  timestamp : ℕ
  score : ℚ
  feedback : Option String
  conversationId : String
deriving DecidableEq, Repr

/-- Model of `PromptPerformance` of `AdaptivePromptSystem.ts`.
`statisticalSignificance` is optional and never written nor read; omitted. -/
structure PromptPerformance where
  totalUses : ℕ
  successRate : ℚ
  avgQualityScore : ℚ
  avgResponseLength : ℚ
  avgResponseTime : ℚ
  coherenceScore : ℚ
  engagementScore : ℚ
  topicRelevanceScore : ℚ
  userRatings : List UserRating
  avgUserRating : ℚ
  confidenceInterval : ℚ
deriving DecidableEq, Repr

/-- Model of `mutationType` values of `PromptVariant`. -/
inductive MutationType where
  | manual
  | auto
  | crossover
  | mutation
deriving DecidableEq, Repr

/-- Model of `PromptVariant` of `AdaptivePromptSystem.ts`. -/
structure PromptVariant where
  id : String
  roleKey : RoleKey
  version : ℕ
  generation : ℕ
  systemPrompt : String
  stylePrompt : String
  temperature : ℚ
  performance : PromptPerformance
  createdAt : ℕ
  parentId : Option String
  mutationType : Option MutationType
  experimentCount : ℕ
  isActive : Bool
  isBaseline : Bool
deriving DecidableEq, Repr

/-- Model of `qualityMetrics` of `ExperimentResult`. -/
structure QualityMetrics where
  coherence : ℚ
  engagement : ℚ
  humor : ℚ
  topicRelevance : ℚ
  overall : ℚ
deriving DecidableEq, Repr

/-- Model of `responseMetrics` of `ExperimentResult`. -/
structure ResponseMetrics where
  avgLength : ℚ
  avgTime : ℚ
  turnCount : ℕ
deriving DecidableEq, Repr

/-- Model of `userFeedback` of `ExperimentResult`. -/
structure UserFeedback where
  rating : ℚ
  comment : Option String
deriving DecidableEq, Repr

/-- Model of `ExperimentResult` of `AdaptivePromptSystem.ts`. -/
structure ExperimentResult where
  variantId : String
  conversationId : String
  timestamp : ℕ
  qualityMetrics : QualityMetrics
  responseMetrics : ResponseMetrics
  userFeedback : Option UserFeedback
deriving DecidableEq, Repr

/-- Model of `EvolutionConfig` of `AdaptivePromptSystem.ts` (counts as naturals). -/
structure EvolutionConfig where
  explorationRate : ℚ
  minSampleSize : ℕ
  confidenceThreshold : ℚ
  mutationRate : ℚ
  crossoverRate : ℚ
  selectionPressure : ℚ
  maxVariants : ℕ
  maxGenerations : ℕ
  autoImprove : Bool
  improvementThreshold : ℚ
deriving DecidableEq, Repr

/-- The defaults supplied in the `AdaptivePromptSystem` constructor. -/
def defaultConfig : EvolutionConfig where
  explorationRate := 1/5
  minSampleSize := 5
  confidenceThreshold := 95/100
  mutationRate := 1/10
  crossoverRate := 3/10
  selectionPressure := 3/2
  maxVariants := 10
  maxGenerations := 20
  autoImprove := true
  improvementThreshold := 1/10

/-- The portion of `AgentConfig` (`types.ts`) read by
`registerBaselinePrompt`: the seed prompts and temperature. -/
structure AgentSeed where
  promptSystem : String
  promptStyle : String
  temperature : ℚ
deriving DecidableEq, Repr

/-- The mutable fields of the `AdaptivePromptSystem` class.  The JS
`Map<string, PromptVariant[]>` keyed by role is embedded as a total function
(with `[]` as the `|| []` default built in); `currentBest` likewise. -/
structure SystemState where
  variants : RoleKey → List PromptVariant
  currentBest : RoleKey → Option PromptVariant
  experiments : List ExperimentResult
  config : EvolutionConfig

/-- Point update of a role-indexed table. -/
def updRole {α : Type} (f : RoleKey → α) (r : RoleKey) (a : α) : RoleKey → α :=
  fun r' => if r' = r then a else f r'

/-- Model of `createEmptyPerformance` of the source. -/
def createEmptyPerformance : PromptPerformance where
  totalUses := 0
  successRate := 0
  avgQualityScore := 1/2
  avgResponseLength := 0
  avgResponseTime := 0
  coherenceScore := 1/2
  engagementScore := 1/2
  topicRelevanceScore := 1/2
  userRatings := []
  avgUserRating := 0
  confidenceInterval := 0

/-- The baseline variant built by `registerBaselinePrompt` (`Date.now()` is
the explicit `now` parameter). -/
def mkBaseline (role : RoleKey) (cfg : AgentSeed) (now : ℕ) : PromptVariant where
  id := role.str ++ "_v1_baseline"
  roleKey := role
  version := 1
  generation := 1
  systemPrompt := cfg.promptSystem
  stylePrompt := cfg.promptStyle
  temperature := cfg.temperature
  performance := createEmptyPerformance
  createdAt := now
  parentId := none
  mutationType := some .manual
  experimentCount := 0
  isActive := true
  isBaseline := true

/-- Model of `registerBaselinePrompt` of the source. -/
def registerBaselinePrompt (s : SystemState) (role : RoleKey) (cfg : AgentSeed)
    (now : ℕ) : SystemState :=
  let baseline := mkBaseline role cfg now
  { s with
    variants := updRole s.variants role (s.variants role ++ [baseline])
    currentBest := updRole s.currentBest role (some baseline) }

/-- First element maximising `f` under the source's strict-improvement scan
(`reduce((best, v) => f v > f best ? v : best)` seeded with the head). -/
def scanMaxBy (f : PromptVariant → ℚ) (c : PromptVariant)
    (cs : List PromptVariant) : PromptVariant :=
  cs.foldl (fun b v => if f v > f b then v else b) c

/-- Model of `selectExplorationVariant` of the source.  The loop returns the first
active variant with `experimentCount < minSampleSize` as soon as it reaches
one; only when none exists does the UCB scan decide.  `ucbBonus total n`
stands for `Math.sqrt(2 * Math.log(total) / n)`.  The result is `none`
exactly when there is no active variant (the source then returns the JS
`undefined` that `activeVariants[0]` produced). -/
def selectExplorationVariant (ucbBonus : ℕ → ℕ → ℚ) (cfg : EvolutionConfig)
    (variants : List PromptVariant) : Option PromptVariant :=
  let active := variants.filter (fun v => v.isActive)
  match active.find? (fun v => v.experimentCount < cfg.minSampleSize) with
  | some v => some v
  | none =>
    let totalTrials := (active.map (fun v => v.experimentCount)).sum
    match active with
    | [] => none
    | c :: cs =>
      some (scanMaxBy
        (fun v => v.performance.avgQualityScore + ucbBonus totalTrials v.experimentCount)
        c cs)

/-- Model of `selectPrompt` of the source; `draw` is the `Math.random()` sample of the
exploration gate.  An empty population throws (`Except.error`); inside the
exploration branch the source can return `undefined`, hence the `Option`. -/
def selectPrompt (ucbBonus : ℕ → ℕ → ℚ) (s : SystemState) (role : RoleKey)
    (draw : ℚ) : Except String (Option PromptVariant) :=
  match s.variants role with
  | [] => .error ("No variants registered for role: " ++ role.str)
  | v0 :: vs =>
    if draw < s.config.explorationRate then
      .ok (selectExplorationVariant ucbBonus s.config (v0 :: vs))
    else
      .ok (some ((s.currentBest role).getD v0))

/-- Model of `calculateConfidenceInterval` of the source, evaluated at the updated
average quality `avgQ` and updated `totalUses` `n`; `sq` models `Math.sqrt`,
`1.96 = 49/25`. -/
def calcConfidenceInterval (sq : ℚ → ℚ) (avgQ : ℚ) (n : ℕ) : ℚ :=
  if n < 2 then 0
  else max 0 (min 1 (1 - (49/25) * sq (avgQ * (1 - avgQ) / n)))

/-- Model of `isSignificantlyBetter` of the source.  (`confidenceInterval || 0` is the
identity on a rational stored value, since `0 || 0 = 0`.) -/
def isSignificantlyBetter (cfg : EvolutionConfig)
    (candidate current : PromptVariant) : Bool :=
  let scoreDiff := candidate.performance.avgQualityScore -
    current.performance.avgQualityScore
  if scoreDiff < cfg.improvementThreshold then false
  else candidate.performance.confidenceInterval > cfg.confidenceThreshold

/-- Model of `updateBestPrompt` of the source: among active variants with enough
samples, take the first maximal `avgQualityScore`; install it if there is no
incumbent or it is significantly better. -/
def updateBestPrompt (s : SystemState) (role : RoleKey) : SystemState :=
  match (s.variants role).filter
      (fun v => v.isActive && decide (v.experimentCount ≥ s.config.minSampleSize)) with
  | [] => s
  | e :: es =>
    let best := scanMaxBy (fun v => v.performance.avgQualityScore) e es
    match s.currentBest role with
    | none => { s with currentBest := updRole s.currentBest role (some best) }
    | some cur =>
      if isSignificantlyBetter s.config best cur then
        { s with currentBest := updRole s.currentBest role (some best) }
      else s

/-- The `Math.random()` samples consumed by one `mutateVariant` call, in
source order: the mutation-index draw (`* 14`, floored), the system/style
coin, the fresh-temperature draw of the third temperature thunk, the 10%
major-mutation gate, and the major-mutation temperature draw. -/
structure MutRand where
  idxDraw : ℚ
  sideDraw : ℚ
  tempDraw : ℚ
  majorDraw : ℚ
  majorTempDraw : ℚ

/-- The `mutations` array of `mutateVariant`: eleven one-argument text
transforms (the source distinguishes them by `mutation.length === 1`) and
three zero-argument temperature thunks, here pre-applied to the parent
temperature `t` and the fresh draw `tempDraw`. -/
def mutationOps (t : ℚ) (tempDraw : ℚ) : List (Sum (String → String) ℚ) :=
  [ .inl (fun p => p ++ "\n簡潔に一言で。"),
    .inl (fun p => p ++ "\n具体例を1つ含めて。"),
    .inl (fun p => p ++ "\nユーモアを多めに。"),
    .inl (fun p => p ++ "\n相手の発言を受けて返答。"),
    .inl (fun p => p ++ "\n独創的な視点で。"),
    .inl (fun p => p.replace "。" "。\n"),
    .inl (fun p => p.replace "簡潔に" "詳しく"),
    .inl (fun p => p.replace "詳しく" "簡潔に"),
    .inl (fun p => p ++ "\n前の発言との関連性を重視。"),
    .inl (fun p => p ++ "\n話題から逸れすぎないよう注意。"),
    .inl (fun p => p ++ "\n積極的に質問を投げかける。"),
    .inr (min 1 (t + 15/100)),
    .inr (max (1/10) (t - 15/100)),
    .inr (1/2 + tempDraw * (1/2)) ]

/-- Model of `mutateVariant` of the source.  For draws in `[0,1)` the floored index is
always in range; the `getD` default is never reached then. -/
def mutateVariant (parent : PromptVariant) (g : MutRand) (now : ℕ) : PromptVariant :=
  let idx : ℕ := (Rat.floor (g.idxDraw * 14)).toNat
  let op := (mutationOps parent.temperature g.tempDraw).getD idx (.inl id)
  let base : String × String × ℚ :=
    match op with
    | .inl f =>
      if g.sideDraw < 1/2 then (f parent.systemPrompt, parent.stylePrompt, parent.temperature)
      else (parent.systemPrompt, f parent.stylePrompt, parent.temperature)
    | .inr t => (parent.systemPrompt, parent.stylePrompt, t)
  let final : String × ℚ :=
    if g.majorDraw < 1/10 then
      ("新しいスタイル：" ++ base.2.1, g.majorTempDraw * (4/5) + 1/5)
    else (base.2.1, base.2.2)
  { id := parent.roleKey.str ++ "_v" ++ toString (parent.version + 1)
      ++ "_mut_" ++ toString now
    roleKey := parent.roleKey
    version := parent.version + 1
    generation := parent.generation + 1
    systemPrompt := base.1
    stylePrompt := final.1
    temperature := final.2
    performance := createEmptyPerformance
    createdAt := now
    parentId := some parent.id
    mutationType := some .mutation
    experimentCount := 0
    isActive := true
    isBaseline := false }

/-- Model of `crossoverVariants` of the source.  The source sorts the eligible
partners by descending `avgQualityScore` (a stable sort) and takes the head;
that head is exactly the first score-maximal element, here obtained by the
strict-improvement scan `scanMaxBy`. -/
def crossoverVariants (s : SystemState) (parent : PromptVariant) (role : RoleKey)
    (now : ℕ) : Option PromptVariant :=
  match (s.variants role).filter
      (fun v => v.id ≠ parent.id && decide (v.performance.avgQualityScore > 3/5)) with
  | [] => none
  | c :: cs =>
    let other := scanMaxBy (fun v => v.performance.avgQualityScore) c cs
    some
      { id := role.str ++ "_v" ++ toString (max parent.version other.version + 1)
          ++ "_cross_" ++ toString now
        roleKey := role
        version := max parent.version other.version + 1
        generation := max parent.generation other.generation + 1
        systemPrompt :=
          if parent.performance.coherenceScore > other.performance.coherenceScore
          then parent.systemPrompt else other.systemPrompt
        stylePrompt :=
          if parent.performance.engagementScore > other.performance.engagementScore
          then parent.stylePrompt else other.stylePrompt
        temperature := (parent.temperature + other.temperature) / 2
        performance := createEmptyPerformance
        createdAt := now
        parentId := some parent.id
        mutationType := some .crossover
        experimentCount := 0
        isActive := true
        isBaseline := false }

/-- Model of `analyzeAndImprove` of the source (heuristic repair): collect the issue
strings, then append one corrective directive per detected issue, in source
order. -/
def analyzeAndImprove (parent : PromptVariant) (now : ℕ) : PromptVariant :=
  let issues : List String :=
    (if parent.performance.coherenceScore < 1/2 then ["一貫性が低い"] else []) ++
    (if parent.performance.engagementScore < 1/2 then ["エンゲージメントが低い"] else []) ++
    (if parent.performance.topicRelevanceScore < 1/2 then ["話題への関連性が低い"] else []) ++
    (if parent.performance.avgResponseLength < 30 then ["応答が短すぎる"] else []) ++
    (if parent.performance.avgResponseLength > 200 then ["応答が長すぎる"] else [])
  let improvedSystem := parent.systemPrompt
    ++ (if issues.contains "一貫性が低い" then "\n前の発言を踏まえて応答してください。" else "")
    ++ (if issues.contains "話題への関連性が低い" then "\n話題から逸れないよう注意してください。" else "")
  let improvedStyle := parent.stylePrompt
    ++ (if issues.contains "エンゲージメントが低い" then "\n相手の発言に積極的に反応してください。" else "")
    ++ (if issues.contains "応答が短すぎる" then "\nもう少し詳しく説明してください。" else "")
    ++ (if issues.contains "応答が長すぎる" then "\n簡潔にまとめてください。" else "")
  { id := parent.roleKey.str ++ "_v" ++ toString (parent.version + 1)
      ++ "_improved_" ++ toString now
    roleKey := parent.roleKey
    version := parent.version + 1
    generation := parent.generation + 1
    systemPrompt := improvedSystem
    stylePrompt := improvedStyle
    temperature := parent.temperature
    performance := createEmptyPerformance
    createdAt := now
    parentId := some parent.id
    mutationType := some .auto
    experimentCount := 0
    isActive := true
    isBaseline := false }

/-- First minimal-score element of `c :: cs` under the source's
`reduce((worst, v) => v.score < worst.score ? v : worst)` scan. -/
def scanMinBy (f : PromptVariant → ℚ) (c : PromptVariant)
    (cs : List PromptVariant) : PromptVariant :=
  cs.foldl (fun w v => if f v < f w then v else w) c

/-- Core of `pruneWorstVariant` on a single role's variant list: no-op when
at most one variant or no non-baseline candidate exists, otherwise remove the
(first) non-baseline variant with the lowest `avgQualityScore`.  The source
removes by `indexOf` on the object picked by the scan, i.e. the first
occurrence of that value. -/
def pruneList (vs : List PromptVariant) : List PromptVariant :=
  if vs.length ≤ 1 then vs
  else
    match vs.filter (fun v => !v.isBaseline) with
    | [] => vs
    | c :: cs => vs.erase (scanMinBy (fun v => v.performance.avgQualityScore) c cs)

/-- Model of `pruneWorstVariant` of the source, lifted to the system state. -/
def pruneWorstVariant (s : SystemState) (role : RoleKey) : SystemState :=
  { s with variants := updRole s.variants role (pruneList (s.variants role)) }

/-- Model of `addVariant` of the source. -/
def addVariant (s : SystemState) (v : PromptVariant) : SystemState :=
  { s with variants := updRole s.variants v.roleKey (s.variants v.roleKey ++ [v]) }

/-- Model of `findVariantById` of the source: scan the per-role lists in map order and
return the first variant with the given id, together with its role. -/
def findVariantById (s : SystemState) (id : String) : Option (RoleKey × PromptVariant) :=
  roleList.foldr
    (fun r acc =>
      match (s.variants r).find? (fun v => v.id = id) with
      | some v => some (r, v)
      | none => acc)
    none

/-- Model of `updateVariantPerformance` of the source, restricted to the variant value
itself: incremental-mean updates of the ledger, optional user rating, the
confidence-interval refresh once `totalUses` reaches `minSampleSize`, and the
`experimentCount` increment.  (`updateBestPrompt` is applied by the caller.) -/
def updatePerf (sq : ℚ → ℚ) (cfg : EvolutionConfig) (v : PromptVariant)
    (r : ExperimentResult) : PromptVariant :=
  let perf := v.performance
  let n : ℚ := perf.totalUses
  let totalUses' := perf.totalUses + 1
  let avgQ := (perf.avgQualityScore * n + r.qualityMetrics.overall) / (n + 1)
  let ratings' :=
    match r.userFeedback with
    | some fb => perf.userRatings ++
        [{ timestamp := r.timestamp, score := fb.rating, feedback := fb.comment
           conversationId := r.conversationId }]
    | none => perf.userRatings
  let avgRating' :=
    match r.userFeedback with
    | some _ => (ratings'.map (fun u => u.score)).sum / (ratings'.length : ℚ)
    | none => perf.avgUserRating
  let conf' :=
    if totalUses' ≥ cfg.minSampleSize then calcConfidenceInterval sq avgQ totalUses'
    else perf.confidenceInterval
  { v with
    performance :=
      { perf with
        totalUses := totalUses'
        avgQualityScore := avgQ
        coherenceScore := (perf.coherenceScore * n + r.qualityMetrics.coherence) / (n + 1)
        engagementScore := (perf.engagementScore * n + r.qualityMetrics.engagement) / (n + 1)
        topicRelevanceScore :=
          (perf.topicRelevanceScore * n + r.qualityMetrics.topicRelevance) / (n + 1)
        avgResponseLength := (perf.avgResponseLength * n + r.responseMetrics.avgLength) / (n + 1)
        avgResponseTime := (perf.avgResponseTime * n + r.responseMetrics.avgTime) / (n + 1)
        userRatings := ratings'
        avgUserRating := avgRating'
        confidenceInterval := conf' }
    experimentCount := v.experimentCount + 1 }

/-- Replace the first variant with the given id (the source mutates the
object found by `find`, i.e. the first occurrence). -/
def replaceFirstById (vs : List PromptVariant) (id : String)
    (v' : PromptVariant) : List PromptVariant :=
  match vs with
  | [] => []
  | v :: rest => if v.id = id then v' :: rest else v :: replaceFirstById rest id v'

/-- Model of `generateImprovedVariant` of the source; `strat` is the strategy draw and
`mg` the mutation draws.  The capacity check (and possible prune) happens
before the strategy choice; crossover then reads the pruned list. -/
def generateImprovedVariant (strat : ℚ) (mg : MutRand) (now : ℕ)
    (s : SystemState) (parent : PromptVariant) : SystemState × Option PromptVariant :=
  if parent.generation ≥ s.config.maxGenerations then (s, none)
  else
    let s' :=
      if (s.variants parent.roleKey).length ≥ s.config.maxVariants then
        pruneWorstVariant s parent.roleKey
      else s
    if strat < s.config.mutationRate then (s', some (mutateVariant parent mg now))
    else if strat < s.config.mutationRate + s.config.crossoverRate then
      (s', crossoverVariants s' parent parent.roleKey now)
    else (s', some (analyzeAndImprove parent now))

/-- The random draws consumed by one `checkAndImprove` call: the strategy
draw and mutation draws of the improvement path, and the mutation draws of
the every-3rd-experiment diversity mutant. -/
structure ImproveRand where
  strat : ℚ
  mut1 : MutRand
  mut2 : MutRand

/-- Model of `checkAndImprove` of the source, applied to the just-updated variant
value `v`: nothing below one experiment; one improvement child when the
average quality is below `0.7` (with capacity pruning inside
`generateImprovedVariant`); and additionally, every third experiment, one
diversity mutant added with no capacity check. -/
def checkAndImprove (g : ImproveRand) (now : ℕ) (s : SystemState)
    (v : PromptVariant) : SystemState :=
  if v.experimentCount < 1 then s
  else
    let s1 :=
      if v.performance.avgQualityScore < 7/10 then
        match generateImprovedVariant g.strat g.mut1 now s v with
        | (s', some nv) => addVariant s' nv
        | (s', none) => s'
      else s
    if v.experimentCount ≥ 3 ∧ v.experimentCount % 3 = 0 then
      addVariant s1 (mutateVariant v g.mut2 now)
    else s1

/-- Model of `recordExperiment` of the source: append to the global experiment log,
then locate the variant; when found, update its ledger in place (the
`currentBest` entry aliases the same object, so it is updated alongside),
re-evaluate the best prompt, and run auto-improvement when enabled. -/
def recordExperiment (sq : ℚ → ℚ) (g : ImproveRand) (now : ℕ)
    (s : SystemState) (r : ExperimentResult) : SystemState :=
  let s0 : SystemState := { s with experiments := s.experiments ++ [r] }
  match findVariantById s0 r.variantId with
  | none => s0
  | some (role, v) =>
    let v' := updatePerf sq s0.config v r
    let cb :=
      match s0.currentBest role with
      | some b => if b.id = v.id then some v' else some b
      | none => none
    let s1 : SystemState :=
      { s0 with
        variants := updRole s0.variants role (replaceFirstById (s0.variants role) v.id v')
        currentBest := updRole s0.currentBest role cb }
    let s2 := updateBestPrompt s1 role
    if s2.config.autoImprove then checkAndImprove g now s2 v' else s2

/-- A message of the conversation history (`Message` in
`ConversationManager.ts`); the optional model/provider tags are never read by
the analysis code and are omitted. -/
structure Message where
  who : RoleKey
  text : String
  timestamp : ℚ
deriving DecidableEq, Repr

/-- The inputs of `SmartConversationManager.analyzeConversation`
(`ConversationContext` without the unread `currentTurn`/`agents` fields). -/
structure ConversationContext where
  topic : String
  history : List Message
deriving DecidableEq, Repr

/-- Model of `ConversationAnalysis` of `ConversationManager.ts`. -/
structure ConversationAnalysis where
  momentum : ℚ
  topicDrift : ℚ
  tensionLevel : ℚ
  lastSpeaker : Option RoleKey
  turnsSinceDirector : ℕ
deriving DecidableEq, Repr

/-- JS `arr.slice(-n)` on a list (the last `n` elements). -/
def takeLast {α : Type} (n : ℕ) (xs : List α) : List α :=
  xs.drop (xs.length - n)

/-- Split a character list at every separator character, keeping the empty
chunks between consecutive separators (the semantics of JS
`split(/[class]/)` and of core `String.split`, in a structurally recursive
form). -/
def splitCharsAux (p : Char → Bool) : List Char → List Char → List String
  | [], acc => [⟨acc.reverse⟩]
  | c :: rest, acc =>
    if p c then ⟨acc.reverse⟩ :: splitCharsAux p rest []
    else splitCharsAux p rest (c :: acc)

/-- String split on a character predicate (JS `split` on a character
class). -/
def strSplit (p : Char → Bool) (s : String) : List String :=
  splitCharsAux p s.data []

/-- JS `toLowerCase` (ASCII case folding suffices for the texts here). -/
def lowerStr (s : String) : String :=
  ⟨s.data.map Char.toLower⟩

/-- JS `arr.join(' ')`. -/
def joinWithSpace : List String → String
  | [] => ""
  | [s] => s
  | s :: rest => s ++ " " ++ joinWithSpace rest

/-- Whitespace test standing for the regex class `\s` (the texts considered
here contain no exotic unicode spaces). -/
def wsChar (c : Char) : Bool :=
  c = ' ' || c = '\t' || c = '\n' || c = '\r'

/-- JS `s.split(/\s+/)`: the maximal non-whitespace runs, plus one empty
token at either end when the string starts/ends with whitespace (and the
single empty token for the empty string). -/
def jsSplitWs (s : String) : List String :=
  let toks := (strSplit wsChar s).filter (fun t => t ≠ "")
  let lead := if s = "" || (s.data.head?.any wsChar) then [""] else []
  let trail := if s ≠ "" && (s.data.getLast?.any wsChar) then [""] else []
  lead ++ toks ++ trail

/-- JS `hay.includes(needle)` (substring containment): some suffix of the
haystack starts with the needle. -/
def strIncludes (hay needle : String) : Bool :=
  (hay.data.tails).any (fun t => needle.data.isPrefixOf t)

/-- Model of `SmartConversationManager.calculateMomentum` (called with the last five
messages).  On histories of all-empty texts the JS code divides by zero and
yields `NaN`; the rational embedding yields `0/0 = 0` there — no input
considered below hits that case. -/
def scmCalculateMomentum (history : List Message) : ℚ :=
  if history.length < 2 then 1/2
  else
    let lengths := history.map (fun m => (m.text.length : ℚ))
    let avgLength := lengths.sum / (lengths.length : ℚ)
    let recentAvg := (takeLast 2 lengths).sum / 2
    min (max (recentAvg / avgLength) 0) 1

/-- Model of `SmartConversationManager.calculateTopicDrift` (called with the last five
messages): lowercase the topic, split on whitespace, and count topic words
contained in the joined lowercased recent text. -/
def scmCalculateTopicDrift (topic : String) (history : List Message) : ℚ :=
  if history.isEmpty then 0
  else
    let topicWords := jsSplitWs (lowerStr topic)
    let recentText := joinWithSpace (history.map (fun m => lowerStr m.text))
    let matchCount := (topicWords.filter (fun w => strIncludes recentText w)).length
    1 - (matchCount : ℚ) / (topicWords.length : ℚ)

/-- Model of `SmartConversationManager.calculateTension` (called with the last five
messages): bucketed by average text length. -/
def scmCalculateTension (history : List Message) : ℚ :=
  if history.length < 2 then 3/10
  else
    let avgLength := ((history.map (fun m => (m.text.length : ℚ))).sum) / (history.length : ℚ)
    if avgLength < 50 then 4/5
    else if avgLength < 100 then 1/2
    else 3/10

/-- Turns since the director last spoke (counted from the end of history). -/
def turnsSinceDirector (history : List Message) : ℕ :=
  ((history.reverse).takeWhile (fun m => m.who ≠ RoleKey.director)).length

/-- Model of `SmartConversationManager.analyzeConversation`. -/
def scmAnalyzeConversation (ctx : ConversationContext) : ConversationAnalysis :=
  let recentHistory := takeLast 5 ctx.history
  { momentum := scmCalculateMomentum recentHistory
    topicDrift := scmCalculateTopicDrift ctx.topic recentHistory
    tensionLevel := scmCalculateTension recentHistory
    lastSpeaker := (ctx.history.getLast?).map (fun m => m.who)
    turnsSinceDirector := turnsSinceDirector ctx.history }

/-- Model of `ReactiveStrategy.shouldDirectorIntervene`. -/
def shouldDirectorIntervene (a : ConversationAnalysis) : Bool :=
  a.topicDrift > 17/20 || a.tensionLevel > 9/10 || a.momentum < 1/5 ||
    decide (a.turnsSinceDirector > 10)

/-- Model of `ReactiveStrategy.selectSpeaker`; `rand` is the `Math.random()` draw of
the after-director branch. -/
def reactiveSelectSpeaker (a : ConversationAnalysis) (rand : ℚ) : RoleKey :=
  if shouldDirectorIntervene a then .director
  else
    match a.lastSpeaker with
    | some .boke => .tsukkomi
    | some .tsukkomi => .boke
    | some .director => if rand > 1/2 then .boke else .tsukkomi
    | none => .director

/-- The Japanese stop-word set of `ConversationAnalyzer`. -/
def japaneseStopWords : List String :=
  ["の", "に", "は", "を", "た", "が", "で", "て", "と", "し", "れ", "さ",
   "ある", "いる", "も", "する", "から", "な", "こと", "として", "い", "や",
   "れる", "など", "なっ", "ない", "この", "ため", "その", "あっ", "よう", "また"]

/-- The separator class of `ConversationAnalyzer.extractKeywords`:
`[\s、。！？「」『』（）\[\]【】・…ー〜]`. -/
def sepChar (c : Char) : Bool :=
  wsChar c || c = '、' || c = '。' || c = '！' || c = '？' || c = '「' || c = '」' ||
    c = '『' || c = '』' || c = '（' || c = '）' || c = '[' || c = ']' || c = '【' ||
    c = '】' || c = '・' || c = '…' || c = 'ー' || c = '〜'

/-- Fold step building a JS `Set` as a first-insertion-ordered list. -/
def insertUniq (acc : List String) (w : String) : List String :=
  if acc.contains w then acc else acc ++ [w]

/-- Model of `ConversationAnalyzer.extractKeywords`: split on the separator class,
keep tokens longer than one character, drop stop words, and deduplicate
(JS `Set` keeps first insertions). -/
def extractKeywordList (text : String) : List String :=
  (((strSplit sepChar text).filter (fun w => w.length > 1)).filter
    (fun w => !japaneseStopWords.contains w)).foldl insertUniq []

/-- Model of `ConversationAnalyzer.calculateTopicDrift` given the extracted topic
keywords: keyword density over the last five messages, mapped through
`clamp(0, 1, 1 - 10 * density)`. -/
def analyzerTopicDrift (topicKeywords : List String) (messages : List Message) : ℚ :=
  if messages.isEmpty || topicKeywords.isEmpty then 0
  else
    let recent := takeLast 5 messages
    let perMsg := recent.map (fun m => extractKeywordList m.text)
    let totalWords := (perMsg.map (fun ws => ws.length)).sum
    let keywordMatches :=
      (perMsg.map (fun ws => (ws.filter (fun w => topicKeywords.contains w)).length)).sum
    if totalWords = 0 then 1/2
    else max 0 (min 1 (1 - (keywordMatches : ℚ) / (totalWords : ℚ) * 10))

/-- Model of `ConversationAnalyzer.calculateTension`: length-bucketed base score,
exclamation/question frequency, negative-word frequency, averaged. -/
def analyzerTension (messages : List Message) : ℚ :=
  if messages.length < 2 then 3/10
  else
    let recent := takeLast 5 messages
    let avgLength := ((recent.map (fun m => (m.text.length : ℚ))).sum) / (recent.length : ℚ)
    let exclamationCount :=
      (recent.map (fun m =>
        (m.text.data.filter (fun c => c = '！' || c = '!' || c = '？' || c = '?')).length)).sum
    let negativeWords : List String := ["ない", "ダメ", "違う", "いや", "でも", "しかし"]
    let negativeCount :=
      (recent.map (fun m => (negativeWords.filter (fun w => strIncludes m.text w)).length)).sum
    let lengthTension : ℚ := if avgLength < 30 then 4/5 else if avgLength < 60 then 1/2 else 3/10
    let exclamationTension := min ((exclamationCount : ℚ) / (recent.length : ℚ)) 1
    let negativeTension := min ((negativeCount : ℚ) / (recent.length : ℚ)) 1
    (lengthTension + exclamationTension + negativeTension) / 3

/-- Model of `ConversationPhase` of `ConversationAnalyzer.ts`. -/
inductive ConversationPhase where
  | opening
  | warmUp
  | development
  | peak
  | closing
deriving DecidableEq, Repr

/-- Model of `ConversationAnalyzer.determinePhase`: the turn-progress ratio mapped to
the fixed bands `0.15 / 0.3 / 0.7 / 0.85`. -/
def determinePhase (currentTurn maxTurns : ℚ) : ConversationPhase :=
  let progress := currentTurn / maxTurns
  if progress < 3/20 then .opening
  else if progress < 3/10 then .warmUp
  else if progress < 7/10 then .development
  else if progress < 17/20 then .peak
  else .closing

/-- Ordinal rank of a conversation phase (opening first, closing last). -/
def phaseRank : ConversationPhase → ℕ
  | .opening => 0
  | .warmUp => 1
  | .development => 2
  | .peak => 3
  | .closing => 4

/-- Model of `ConversationAnalyzer.predictNextSpeaker`, returning the predicted role
and confidence.  The per-role `utteranceCount` read in the after-director
branch is exactly the count `analyzeSpeakers` supplies for that role; the
human-readable reason strings are not modelled. -/
def predictNextSpeaker (messages : List Message) (phase : ConversationPhase)
    (topicDrift tensionLevel : ℚ) : RoleKey × ℚ :=
  let lastSpeaker := (messages.getLast?).map (fun m => m.who)
  let base : RoleKey × ℚ :=
    if topicDrift > 7/10 || tensionLevel > 4/5 then (.director, 9/10)
    else
      match lastSpeaker with
      | some .boke => (.tsukkomi, 17/20)
      | some .tsukkomi => (.boke, 4/5)
      | some .director =>
        let bokeCount := (messages.filter (fun m => m.who = RoleKey.boke)).length
        let tsukCount := (messages.filter (fun m => m.who = RoleKey.tsukkomi)).length
        (if bokeCount < tsukCount then .boke else .tsukkomi, 7/10)
      | none => (.boke, 1/2)
  let adjusted : ℚ :=
    if phase = .opening then base.2 * (9/10)
    else if phase = .peak then base.2 * (11/10)
    else base.2
  (base.1, min adjusted 1)

/-- The next-speaker forecast as assembled by
`ConversationAnalyzer.analyzeConversation`: topic keywords from the topic,
the analyzer's own drift and tension metrics, the phase from the turn ratio,
all fed into `predictNextSpeaker`. -/
def analyzerForecast (messages : List Message) (topic : String)
    (currentTurn maxTurns : ℚ) : RoleKey × ℚ :=
  predictNextSpeaker messages (determinePhase currentTurn maxTurns)
    (analyzerTopicDrift (extractKeywordList topic) messages)
    (analyzerTension messages)

/-- Trivial stand-in for `Math.sqrt` used when instantiating theorems whose
statements hold for every square-root model. -/
def sq0 : ℚ → ℚ := fun _ => 0

/-- Trivial stand-in for the UCB exploration bonus, for instantiations. -/
def ucb0 : ℕ → ℕ → ℚ := fun _ _ => 0

/-- Concrete mutation draws: mutation index 0, system side, no major
mutation. -/
def mutRand0 : MutRand where
  idxDraw := 0
  sideDraw := 0
  tempDraw := 0
  majorDraw := 1/2
  majorTempDraw := 0

/-- Concrete improvement draws. -/
def improveRand0 : ImproveRand where
  strat := 1/2
  mut1 := mutRand0
  mut2 := mutRand0

/-- A ledger with the given use count and average quality, otherwise
neutral. -/
def perfWith (uses : ℕ) (q : ℚ) : PromptPerformance :=
  { createEmptyPerformance with totalUses := uses, avgQualityScore := q }

/-- Baseline variant of the capacity scenario: two experiments recorded,
average quality `0.9`. -/
def vBaseC1 : PromptVariant where
  id := "boke_v1_baseline"
  roleKey := .boke
  version := 1
  generation := 1
  systemPrompt := "S"
  stylePrompt := "T"
  temperature := 7/10
  performance := perfWith 2 (9/10)
  createdAt := 0
  parentId := none
  mutationType := some .manual
  experimentCount := 2
  isActive := true
  isBaseline := true

/-- Non-baseline variant of the capacity scenario: two experiments recorded,
average quality `0.9`, so the diversity path fires on its third result. -/
def vChildC1 : PromptVariant where
  id := "boke_v2_child"
  roleKey := .boke
  version := 2
  generation := 2
  systemPrompt := "S"
  stylePrompt := "T"
  temperature := 7/10
  performance := perfWith 2 (9/10)
  createdAt := 0
  parentId := some "boke_v1_baseline"
  mutationType := some .mutation
  experimentCount := 2
  isActive := true
  isBaseline := false

/-- Capacity scenario state: `maxVariants := 2` and the `boke` population
already at capacity. -/
def stateC1 : SystemState where
  variants := fun r => match r with | .boke => [vBaseC1, vChildC1] | _ => []
  currentBest := fun r => match r with | .boke => some vBaseC1 | _ => none
  experiments := []
  config := { defaultConfig with maxVariants := 2 }

/-- Third high-quality result on `vChildC1`. -/
def resultC1 : ExperimentResult where
  variantId := "boke_v2_child"
  conversationId := "conv"
  timestamp := 0
  qualityMetrics := { coherence := 9/10, engagement := 9/10, humor := 1/2
                      topicRelevance := 9/10, overall := 9/10 }
  responseMetrics := { avgLength := 50, avgTime := 1, turnCount := 1 }
  userFeedback := none

/-- Baseline of the cold-start scenario: already at `minSampleSize`
experiments and promoted as current best. -/
def vBaseC2 : PromptVariant where
  id := "boke_v1_baseline"
  roleKey := .boke
  version := 1
  generation := 1
  systemPrompt := "S"
  stylePrompt := "T"
  temperature := 7/10
  performance := perfWith 5 (1/2)
  createdAt := 0
  parentId := none
  mutationType := some .manual
  experimentCount := 5
  isActive := true
  isBaseline := true

/-- Fresh active variant of the cold-start scenario: zero experiments. -/
def vNewC2 : PromptVariant where
  id := "boke_v2_new"
  roleKey := .boke
  version := 2
  generation := 2
  systemPrompt := "S"
  stylePrompt := "T"
  temperature := 7/10
  performance := perfWith 0 (1/2)
  createdAt := 0
  parentId := some "boke_v1_baseline"
  mutationType := some .mutation
  experimentCount := 0
  isActive := true
  isBaseline := false

/-- Cold-start scenario state under the default configuration. -/
def stateC2 : SystemState where
  variants := fun r => match r with | .boke => [vBaseC2, vNewC2] | _ => []
  currentBest := fun r => match r with | .boke => some vBaseC2 | _ => none
  experiments := []
  config := defaultConfig

/-- Crossover scenario parent: generation 1, average quality `0.5`. -/
def pC3 : PromptVariant where
  id := "boke_v1_b"
  roleKey := .boke
  version := 1
  generation := 1
  systemPrompt := "PS"
  stylePrompt := "PT"
  temperature := 1/2
  performance := perfWith 4 (1/2)
  createdAt := 0
  parentId := none
  mutationType := some .manual
  experimentCount := 4
  isActive := true
  isBaseline := true

/-- Crossover scenario partner: generation 3, average quality `0.7`
(eligible, score above `0.6`). -/
def oC3 : PromptVariant where
  id := "boke_v3_o"
  roleKey := .boke
  version := 3
  generation := 3
  systemPrompt := "OS"
  stylePrompt := "OT"
  temperature := 9/10
  performance := perfWith 4 (7/10)
  createdAt := 0
  parentId := some "boke_v1_b"
  mutationType := some .mutation
  experimentCount := 4
  isActive := true
  isBaseline := false

/-- Crossover scenario state. -/
def stateC3 : SystemState where
  variants := fun r => match r with | .boke => [pC3, oC3] | _ => []
  currentBest := fun r => match r with | .boke => some pC3 | _ => none
  experiments := []
  config := defaultConfig

/-- Prune scenario baseline (score `0.5`). -/
def vBase6 : PromptVariant where
  id := "boke_v1_baseline"
  roleKey := .boke
  version := 1
  generation := 1
  systemPrompt := "S"
  stylePrompt := "T"
  temperature := 1/2
  performance := perfWith 3 (1/2)
  createdAt := 0
  parentId := none
  mutationType := some .manual
  experimentCount := 3
  isActive := true
  isBaseline := true

/-- Prune scenario: inactive non-baseline variant with the globally lowest
score `0.1`. -/
def vInact6 : PromptVariant where
  id := "boke_v2_off"
  roleKey := .boke
  version := 2
  generation := 2
  systemPrompt := "S"
  stylePrompt := "T"
  temperature := 1/2
  performance := perfWith 3 (1/10)
  createdAt := 0
  parentId := some "boke_v1_baseline"
  mutationType := some .mutation
  experimentCount := 3
  isActive := false
  isBaseline := false

/-- Prune scenario: active non-baseline variant with the lowest score among
active variants, `0.2`. -/
def vAct6 : PromptVariant where
  id := "boke_v3_low"
  roleKey := .boke
  version := 3
  generation := 2
  systemPrompt := "S"
  stylePrompt := "T"
  temperature := 1/2
  performance := perfWith 3 (1/5)
  createdAt := 0
  parentId := some "boke_v1_baseline"
  mutationType := some .mutation
  experimentCount := 3
  isActive := true
  isBaseline := false

/-- Prune scenario population. -/
def listC6 : List PromptVariant := [vBase6, vInact6, vAct6]

/-- Empty-history context for the reactive-strategy scenario. -/
def ctxC7 : ConversationContext where
  topic := "hello world"
  history := []

/-- An experiment result whose variant id matches no registered variant. -/
def resultC8 : ExperimentResult where
  variantId := "nobody_v9_missing"
  conversationId := "conv"
  timestamp := 3
  qualityMetrics := { coherence := 1/2, engagement := 1/2, humor := 1/2
                      topicRelevance := 1/2, overall := 1/2 }
  responseMetrics := { avgLength := 40, avgTime := 2, turnCount := 1 }
  userFeedback := none

/-- History of the analyzer scenario: a director intro, a 35-character joke
by the initiator, and a 15-character rebuttal by the reactor. -/
def msgsC4 : List Message :=
  [⟨.director, "intro", 0⟩,
   ⟨.boke, "Why do refrigerators hum so loudly!", 0⟩,
   ⟨.tsukkomi, "short rebuttal!", 0⟩]

/-- Topic of the analyzer scenario. -/
def topicC4 : String := "why refrigerators hum"

/-- Decidable equality for `Except`, needed to state concrete facts about
`selectPrompt` results. -/
instance {ε α : Type} [DecidableEq ε] [DecidableEq α] : DecidableEq (Except ε α) :=
  fun a b =>
    match a, b with
    | .ok x, .ok y => if h : x = y then .isTrue (by rw [h]) else .isFalse (by simp [h])
    | .error x, .error y => if h : x = y then .isTrue (by rw [h]) else .isFalse (by simp [h])
    | .ok _, .error _ => .isFalse (by simp)
    | .error _, .ok _ => .isFalse (by simp)

lemma scanMaxBy_mem (f : PromptVariant → ℚ) (c : PromptVariant)
    (cs : List PromptVariant) : scanMaxBy f c cs ∈ c :: cs := by
  induction cs generalizing c with
  | nil => simp [scanMaxBy]
  | cons v vs ih =>
    have h := ih (if f v > f c then v else c)
    simp only [scanMaxBy, List.foldl_cons] at h ⊢
    rcases List.mem_cons.1 h with h1 | h1
    · rw [h1]
      by_cases hf : f v > f c <;> simp [hf]
    · exact List.mem_cons.2 (Or.inr (List.mem_cons.2 (Or.inr h1)))

lemma scanMinBy_mem (f : PromptVariant → ℚ) (c : PromptVariant)
    (cs : List PromptVariant) : scanMinBy f c cs ∈ c :: cs := by
  induction cs generalizing c with
  | nil => simp [scanMinBy]
  | cons v vs ih =>
    have h := ih (if f v < f c then v else c)
    simp only [scanMinBy, List.foldl_cons] at h ⊢
    rcases List.mem_cons.1 h with h1 | h1
    · rw [h1]
      by_cases hf : f v < f c <;> simp [hf]
    · exact List.mem_cons.2 (Or.inr (List.mem_cons.2 (Or.inr h1)))

lemma scanMinBy_le (f : PromptVariant → ℚ) (c : PromptVariant)
    (cs : List PromptVariant) :
    f (scanMinBy f c cs) ≤ f c ∧ ∀ v ∈ cs, f (scanMinBy f c cs) ≤ f v := by
  induction cs generalizing c with
  | nil => simp [scanMinBy]
  | cons v vs ih =>
    have h := ih (if f v < f c then v else c)
    simp only [scanMinBy, List.foldl_cons] at h ⊢
    have hstep1 : f (if f v < f c then v else c) ≤ f c := by
      by_cases hf : f v < f c <;> simp [hf]
      exact le_of_lt hf
    have hstep2 : f (if f v < f c then v else c) ≤ f v := by
      by_cases hf : f v < f c <;> simp [hf]
      exact le_of_not_lt hf
    refine ⟨le_trans h.1 hstep1, ?_⟩
    intro u hu
    rcases List.mem_cons.1 hu with h1 | h1
    · rw [h1]; exact le_trans h.1 hstep2
    · exact h.2 u h1

lemma exploration_cold_start (ucbBonus : ℕ → ℕ → ℚ) (cfg : EvolutionConfig)
    (vs : List PromptVariant) (v : PromptVariant) (hv : v ∈ vs)
    (ha : v.isActive = true) (hc : v.experimentCount < cfg.minSampleSize) :
    ∃ w, selectExplorationVariant ucbBonus cfg vs = some w ∧
      w.isActive = true ∧ w.experimentCount < cfg.minSampleSize := by
  have hmem : v ∈ vs.filter (fun v => v.isActive) := by
    exact List.mem_filter.2 ⟨hv, ha⟩
  unfold selectExplorationVariant
  cases hf : (vs.filter (fun v => v.isActive)).find?
      (fun v => decide (v.experimentCount < cfg.minSampleSize)) with
  | none =>
    exfalso
    have := List.find?_eq_none.1 hf v hmem
    simp only [decide_eq_true_eq] at this
    exact this hc
  | some w =>
    refine ⟨w, by simp only [selectExplorationVariant, hf], ?_, ?_⟩
    · exact (List.mem_filter.1 (List.mem_of_find?_eq_some hf)).2
    · have := List.find?_some hf
      simpa using this

lemma experiments_addVariant (s : SystemState) (v : PromptVariant) :
    (addVariant s v).experiments = s.experiments := rfl

lemma experiments_pruneWorstVariant (s : SystemState) (role : RoleKey) :
    (pruneWorstVariant s role).experiments = s.experiments := rfl

lemma experiments_updateBestPrompt (s : SystemState) (role : RoleKey) :
    (updateBestPrompt s role).experiments = s.experiments := by
  unfold updateBestPrompt
  split
  · rfl
  · split
    · rfl
    · dsimp only
      split <;> rfl

lemma experiments_generateImprovedVariant (strat : ℚ) (mg : MutRand) (now : ℕ)
    (s : SystemState) (p : PromptVariant) :
    (generateImprovedVariant strat mg now s p).1.experiments = s.experiments := by
  unfold generateImprovedVariant
  split
  · rfl
  · split <;> split <;> simp [experiments_pruneWorstVariant] <;> split <;> rfl

lemma experiments_checkAndImprove (g : ImproveRand) (now : ℕ) (s : SystemState)
    (v : PromptVariant) : (checkAndImprove g now s v).experiments = s.experiments := by
  unfold checkAndImprove
  split
  · rfl
  · have h1 : (if v.performance.avgQualityScore < 7/10 then
        match generateImprovedVariant g.strat g.mut1 now s v with
        | (s', some nv) => addVariant s' nv
        | (s', none) => s'
      else s).experiments = s.experiments := by
      split
      · cases hg : generateImprovedVariant g.strat g.mut1 now s v with
        | mk s' onv =>
          have := experiments_generateImprovedVariant g.strat g.mut1 now s v
          rw [hg] at this
          cases onv <;> simpa [experiments_addVariant] using this
      · rfl
    dsimp only
    by_cases h3 : v.experimentCount ≥ 3 ∧ v.experimentCount % 3 = 0
    · rw [if_pos h3, experiments_addVariant]
      exact h1
    · rw [if_neg h3]
      exact h1

/-- Claim C1: the capacity invariant fails in the code.  With
`maxVariants = 2` and the `boke` population at capacity, recording a third
high-quality experiment on the non-baseline variant triggers the
every-3rd-experiment diversity mutant, which `checkAndImprove` adds without
any capacity check: the population grows to 3 variants, exceeding
`maxVariants`. -/
theorem C1_capacity_exceeded :
    ((recordExperiment sq0 improveRand0 7 stateC1 resultC1).variants .boke).length = 3 ∧
    stateC1.config.maxVariants = 2 ∧
    (stateC1.variants .boke).length = 2 :=
  of_decide_eq_true (by with_unfolding_all rfl)

/-- Claim C4: on the concrete history (director "intro", a 35-character joke
by the initiator, a 15-character rebuttal by the reactor) with topic "why
refrigerators hum", the reactive moderator-intervention predicate is false,
and the analyzer forecasts the initiator (`boke`) next at confidence `0.8`,
the reactor having spoken last. -/
theorem C4_scenario :
    shouldDirectorIntervene (scmAnalyzeConversation ⟨topicC4, msgsC4⟩) = false ∧
    analyzerForecast msgsC4 topicC4 3 8 = (.boke, 4/5) ∧
    msgsC4.map (fun m => m.text.length) = [5, 35, 15] ∧
    (msgsC4.getLast?).map (fun m => m.who) = some .tsukkomi :=
  of_decide_eq_true (by with_unfolding_all rfl)

/-- Claim C2, counterexample: in a state with an active under-sampled
variant (`vNewC2`, zero experiments), an exploit-side draw (`0.5`, at least
the default exploration rate `0.2`) makes `selectPrompt` return the current
best, whose `experimentCount` already reached `minSampleSize` — so the
cold-start priority is not unconditional over the draw. -/
theorem C2_counterexample :
    selectPrompt ucb0 stateC2 .boke (1/2) = .ok (some vBaseC2) ∧
    vBaseC2.experimentCount ≥ stateC2.config.minSampleSize ∧
    vNewC2 ∈ stateC2.variants .boke ∧
    vNewC2.isActive = true ∧
    vNewC2.experimentCount < stateC2.config.minSampleSize :=
  of_decide_eq_true (by with_unfolding_all rfl)

/-- Claim C3, counterexample: a crossover child of a generation-1 parent
with a generation-3 partner gets generation `max 1 3 + 1 = 4`, not
`parent.generation + 1 = 2` — crossover generation is not a function of the
designated parent alone. -/
theorem C3_counterexample :
    (crossoverVariants stateC3 pC3 .boke 0).map (fun c => c.generation) = some 4 ∧
    pC3.generation + 1 = 2 ∧ (4 : ℕ) ≠ 2 :=
  of_decide_eq_true (by with_unfolding_all rfl)

/-- Claim C6, counterexample: `pruneWorstVariant` selects the worst among
all non-baseline variants, active or not.  Here it removes the inactive
variant `vInact6` (score `0.1`), not the lowest-scoring active non-baseline
variant `vAct6` (score `0.2`) that the claim designates. -/
theorem C6_counterexample :
    pruneList listC6 = [vBase6, vAct6] ∧
    vInact6.isBaseline = false ∧ vInact6.isActive = false ∧
    vAct6.isBaseline = false ∧ vAct6.isActive = true ∧
    vInact6 ∉ pruneList listC6 :=
  of_decide_eq_true (by with_unfolding_all rfl)

/-- Claim C7, counterexample: on the empty history no intervention condition
fires (momentum `0.5`, drift `0`, tension `0.3`, zero turns since the
director), yet the reactive strategy still selects the director as the
opening speaker — the "only if" direction of the claimed iff fails. -/
theorem C7_counterexample :
    reactiveSelectSpeaker (scmAnalyzeConversation ctxC7) 0 = .director ∧
    shouldDirectorIntervene (scmAnalyzeConversation ctxC7) = false ∧
    ctxC7.history = [] :=
  of_decide_eq_true (by with_unfolding_all rfl)

lemma findVariantById_experiments_invariant (s : SystemState)
    (e : List ExperimentResult) (id : String) :
    findVariantById { s with experiments := e } id = findVariantById s id := rfl

/-- Claim C10: `recordExperiment` appends the result to the global
experiment log unconditionally, before the variant lookup; in particular the
log grows by one entry even when the variant id matches no registered
variant, so the log can hold orphan entries. -/
theorem C10_log_always_grows (sq : ℚ → ℚ) (g : ImproveRand) (now : ℕ)
    (s : SystemState) (r : ExperimentResult) :
    (recordExperiment sq g now s r).experiments = s.experiments ++ [r] := by
  unfold recordExperiment
  cases hf : findVariantById { s with experiments := s.experiments ++ [r] } r.variantId with
  | none => simp only [hf]
  | some p =>
    obtain ⟨role, v⟩ := p
    simp only [hf]
    split <;>
      simp [experiments_checkAndImprove, experiments_updateBestPrompt]

/-- Claim C8: when the result's variant id matches no registered variant,
`recordExperiment` changes neither the per-role variant lists (hence no
ledger and no `experimentCount`) nor the current-best map; only the
experiment log grows, and the total function never throws. -/
theorem C8_unknown_id_ignored (sq : ℚ → ℚ) (g : ImproveRand) (now : ℕ)
    (s : SystemState) (r : ExperimentResult)
    (h : findVariantById s r.variantId = none) :
    (recordExperiment sq g now s r).variants = s.variants ∧
    (recordExperiment sq g now s r).currentBest = s.currentBest ∧
    (recordExperiment sq g now s r).experiments = s.experiments ++ [r] := by
  have h' : findVariantById { s with experiments := s.experiments ++ [r] } r.variantId = none := by
    rw [findVariantById_experiments_invariant]
    exact h
  unfold recordExperiment
  simp only [h']
  exact ⟨trivial, trivial, trivial⟩

/-- Witness for C8: a concrete unknown-id result on a concrete state. -/
theorem C8_unknown_id_ignored_witness :
    (recordExperiment sq0 improveRand0 0 stateC2 resultC8).variants = stateC2.variants ∧
    (recordExperiment sq0 improveRand0 0 stateC2 resultC8).currentBest = stateC2.currentBest ∧
    (recordExperiment sq0 improveRand0 0 stateC2 resultC8).experiments =
      stateC2.experiments ++ [resultC8] :=
  C8_unknown_id_ignored sq0 improveRand0 0 stateC2 resultC8
    (of_decide_eq_true (by with_unfolding_all rfl))

lemma isSignificantlyBetter_true (cfg : EvolutionConfig) (cand cur : PromptVariant)
    (h : isSignificantlyBetter cfg cand cur = true) :
    cand.performance.avgQualityScore - cur.performance.avgQualityScore ≥
      cfg.improvementThreshold ∧
    cand.performance.confidenceInterval > cfg.confidenceThreshold := by
  unfold isSignificantlyBetter at h
  dsimp only at h
  split at h
  · exact absurd h (by simp)
  · exact ⟨le_of_not_lt (by assumption), by simpa using h⟩

/-- Claim C5: whenever a role has an incumbent current-best, `updateBestPrompt`
either leaves it in place or replaces it with a candidate whose average
quality exceeds the incumbent's by at least `improvementThreshold` and whose
confidence estimate strictly exceeds `confidenceThreshold` — so no
replacement happens when only one of the two conditions holds. -/
theorem C5_replacement_needs_both (s : SystemState) (role : RoleKey)
    (cur : PromptVariant) (h : s.currentBest role = some cur) :
    (updateBestPrompt s role).currentBest role = some cur ∨
    ∃ b, (updateBestPrompt s role).currentBest role = some b ∧
      b.performance.avgQualityScore - cur.performance.avgQualityScore ≥
        s.config.improvementThreshold ∧
      b.performance.confidenceInterval > s.config.confidenceThreshold := by
  unfold updateBestPrompt
  cases hfil : (s.variants role).filter
      (fun v => v.isActive && decide (v.experimentCount ≥ s.config.minSampleSize)) with
  | nil => exact Or.inl h
  | cons e es =>
    rw [h]
    dsimp only
    by_cases hsig : isSignificantlyBetter s.config
        (scanMaxBy (fun v => v.performance.avgQualityScore) e es) cur = true
    · rw [if_pos hsig]
      refine Or.inr ⟨scanMaxBy (fun v => v.performance.avgQualityScore) e es, ?_, ?_, ?_⟩
      · simp [updRole]
      · exact (isSignificantlyBetter_true _ _ _ hsig).1
      · exact (isSignificantlyBetter_true _ _ _ hsig).2
    · rw [if_neg hsig]
      exact Or.inl h

/-- Witness for C5, instantiated at the cold-start state: the baseline is
its own only eligible candidate and stays in place. -/
theorem C5_replacement_needs_both_witness :
    (updateBestPrompt stateC2 .boke).currentBest .boke = some vBaseC2 ∨
    ∃ b, (updateBestPrompt stateC2 .boke).currentBest .boke = some b ∧
      b.performance.avgQualityScore - vBaseC2.performance.avgQualityScore ≥
        stateC2.config.improvementThreshold ∧
      b.performance.confidenceInterval > stateC2.config.confidenceThreshold :=
  C5_replacement_needs_both stateC2 .boke vBaseC2 rfl

/-- Claim C9: for a fixed positive `maxTurns`, the conversation phase
assigned by `determinePhase` is monotone non-decreasing in ordinal rank as
`currentTurn` increases. -/
theorem C9_phase_monotone (maxTurns t1 t2 : ℚ) (hm : 0 < maxTurns) (ht : t1 ≤ t2) :
    phaseRank (determinePhase t1 maxTurns) ≤ phaseRank (determinePhase t2 maxTurns) := by
  have hp : t1 / maxTurns ≤ t2 / maxTurns := by
    apply div_le_div_of_nonneg_right ht (le_of_lt hm)
  unfold determinePhase
  dsimp only
  split_ifs <;> first | decide | (exfalso; linarith)

/-- Witness for C9: with `maxTurns = 8`, rank at turn 1 is at most rank at
turn 5. -/
theorem C9_phase_monotone_witness :
    (0 : ℚ) < 8 ∧ (1 : ℚ) ≤ 5 ∧
    phaseRank (determinePhase 1 8) ≤ phaseRank (determinePhase 5 8) :=
  ⟨by norm_num, by norm_num, C9_phase_monotone 8 1 5 (by norm_num) (by norm_num)⟩

/-- Claim C2, amended: the cold-start priority is conditional on the
exploration draw.  Whenever the draw falls below `explorationRate` and some
active variant of the role is under-sampled, `selectPrompt` returns an
active variant with `experimentCount < minSampleSize`; on the exploit side
it returns the promoted current best regardless of sample counts (see the
counterexample). -/
theorem C2_cold_start_on_exploration (ucbBonus : ℕ → ℕ → ℚ) (s : SystemState)
    (role : RoleKey) (draw : ℚ) (hdraw : draw < s.config.explorationRate)
    (v : PromptVariant) (hv : v ∈ s.variants role) (ha : v.isActive = true)
    (hc : v.experimentCount < s.config.minSampleSize) :
    ∃ w, selectPrompt ucbBonus s role draw = .ok (some w) ∧
      w.isActive = true ∧ w.experimentCount < s.config.minSampleSize := by
  cases hvs : s.variants role with
  | nil => rw [hvs] at hv; cases hv
  | cons v0 rest =>
    rw [hvs] at hv
    obtain ⟨w, hw, hwa, hwc⟩ := exploration_cold_start ucbBonus s.config (v0 :: rest) v hv ha hc
    refine ⟨w, ?_, hwa, hwc⟩
    unfold selectPrompt
    rw [hvs]
    dsimp only
    rw [if_pos hdraw, hw]

/-- Witness for C2's amended statement: a zero draw on the cold-start state
returns the fresh variant. -/
theorem C2_cold_start_on_exploration_witness :
    ∃ w, selectPrompt ucb0 stateC2 .boke 0 = .ok (some w) ∧
      w.isActive = true ∧ w.experimentCount < stateC2.config.minSampleSize :=
  C2_cold_start_on_exploration ucb0 stateC2 .boke 0
    (of_decide_eq_true (by with_unfolding_all rfl)) vNewC2
    (of_decide_eq_true (by with_unfolding_all rfl))
    (of_decide_eq_true (by with_unfolding_all rfl))
    (of_decide_eq_true (by with_unfolding_all rfl))

/-- Claim C3, amended: mutation and heuristic-repair children have
generation `parent.generation + 1` and the baseline has generation 1, but a
crossover child has generation `max(parent.generation, partner.generation) + 1`
for the eligible partner the source picks — not a function of the designated
parent alone (see the counterexample). -/
theorem C3_generation_rule :
    (∀ (p : PromptVariant) (g : MutRand) (now : ℕ),
      (mutateVariant p g now).generation = p.generation + 1) ∧
    (∀ (p : PromptVariant) (now : ℕ),
      (analyzeAndImprove p now).generation = p.generation + 1) ∧
    (∀ (role : RoleKey) (seed : AgentSeed) (now : ℕ),
      (mkBaseline role seed now).generation = 1) ∧
    (∀ (s : SystemState) (p : PromptVariant) (role : RoleKey) (now : ℕ)
      (child : PromptVariant), crossoverVariants s p role now = some child →
      ∃ other, other ∈ s.variants role ∧ other.id ≠ p.id ∧
        other.performance.avgQualityScore > 3/5 ∧
        child.generation = max p.generation other.generation + 1) := by
  refine ⟨fun p g now => rfl, fun p now => rfl, fun role seed now => rfl, ?_⟩
  intro s p role now child h
  unfold crossoverVariants at h
  cases hfil : (s.variants role).filter
      (fun v => v.id ≠ p.id && decide (v.performance.avgQualityScore > 3/5)) with
  | nil =>
    rw [hfil] at h
    exact Option.noConfusion h
  | cons c cs =>
    rw [hfil] at h
    dsimp only at h
    injection h with h'
    have hmem : scanMaxBy (fun v => v.performance.avgQualityScore) c cs ∈
        (s.variants role).filter
          (fun v => v.id ≠ p.id && decide (v.performance.avgQualityScore > 3/5)) := by
      rw [hfil]
      exact scanMaxBy_mem (fun v => v.performance.avgQualityScore) c cs
    obtain ⟨hmemV, hpred⟩ := List.mem_filter.1 hmem
    simp only [Bool.and_eq_true, decide_eq_true_eq] at hpred
    exact ⟨scanMaxBy (fun v => v.performance.avgQualityScore) c cs,
      hmemV, hpred.1, hpred.2, by rw [← h']⟩

/-- Witness for C3's amended statement, at the crossover scenario state. -/
theorem C3_generation_rule_witness :
    (mutateVariant pC3 mutRand0 0).generation = pC3.generation + 1 ∧
    (analyzeAndImprove pC3 0).generation = pC3.generation + 1 ∧
    (mkBaseline .boke ⟨"s", "t", 1/2⟩ 0).generation = 1 ∧
    ∃ child, crossoverVariants stateC3 pC3 .boke 0 = some child ∧
      ∃ other, other ∈ stateC3.variants .boke ∧ other.id ≠ pC3.id ∧
        other.performance.avgQualityScore > 3/5 ∧
        child.generation = max pC3.generation other.generation + 1 := by
  refine ⟨C3_generation_rule.1 pC3 mutRand0 0, C3_generation_rule.2.1 pC3 0,
    C3_generation_rule.2.2.1 .boke ⟨"s", "t", 1/2⟩ 0, ?_⟩
  have hs : (crossoverVariants stateC3 pC3 .boke 0).isSome :=
    of_decide_eq_true (by with_unfolding_all rfl)
  exact ⟨_, (Option.some_get hs).symm,
    C3_generation_rule.2.2.2 stateC3 pC3 .boke 0 _ (Option.some_get hs).symm⟩

/-- Claim C6, amended: `pruneWorstVariant` never removes a baseline variant
and is a no-op when the population has at most one variant or no
non-baseline candidate; otherwise it removes exactly one variant — the
first non-baseline variant (active or not) whose `avgQualityScore` is
minimal among all non-baseline variants.  The claim's restriction to active
variants does not hold (see the counterexample). -/
theorem C6_prune_spec (vs : List PromptVariant) :
    ((vs.length ≤ 1 ∨ vs.filter (fun v => !v.isBaseline) = []) → pruneList vs = vs) ∧
    (∀ v, v.isBaseline = true → (pruneList vs).count v = vs.count v) ∧
    (1 < vs.length → vs.filter (fun v => !v.isBaseline) ≠ [] →
      ∃ w, w ∈ vs ∧ w.isBaseline = false ∧
        (∀ u ∈ vs, u.isBaseline = false →
          w.performance.avgQualityScore ≤ u.performance.avgQualityScore) ∧
        pruneList vs = vs.erase w ∧ (pruneList vs).length + 1 = vs.length) := by
  refine ⟨?_, ?_, ?_⟩
  · intro h
    unfold pruneList
    rcases h with h | h
    · rw [if_pos h]
    · by_cases hl : vs.length ≤ 1
      · rw [if_pos hl]
      · rw [if_neg hl, h]
  · intro v hv
    unfold pruneList
    by_cases hl : vs.length ≤ 1
    · rw [if_pos hl]
    · rw [if_neg hl]
      cases hfil : vs.filter (fun v => !v.isBaseline) with
      | nil => rfl
      | cons c cs =>
        dsimp only
        have hwmem : scanMinBy (fun v => v.performance.avgQualityScore) c cs ∈
            vs.filter (fun v => !v.isBaseline) := by
          rw [hfil]
          exact scanMinBy_mem (fun v => v.performance.avgQualityScore) c cs
        have hwb : (scanMinBy (fun v => v.performance.avgQualityScore) c cs).isBaseline = false := by
          have := (List.mem_filter.1 hwmem).2
          simpa using this
        have hne : v ≠ scanMinBy (fun v => v.performance.avgQualityScore) c cs := by
          intro he
          rw [he] at hv
          rw [hv] at hwb
          exact Bool.noConfusion hwb
        exact List.count_erase_of_ne hne vs
  · intro hl hfil0
    unfold pruneList
    rw [if_neg (by omega)]
    cases hfil : vs.filter (fun v => !v.isBaseline) with
    | nil => exact absurd hfil hfil0
    | cons c cs =>
      dsimp only
      have hwmem : scanMinBy (fun v => v.performance.avgQualityScore) c cs ∈
          vs.filter (fun v => !v.isBaseline) := by
        rw [hfil]
        exact scanMinBy_mem (fun v => v.performance.avgQualityScore) c cs
      obtain ⟨hmemV, hpred⟩ := List.mem_filter.1 hwmem
      refine ⟨scanMinBy (fun v => v.performance.avgQualityScore) c cs, hmemV,
        by simpa using hpred, ?_, rfl, ?_⟩
      · intro u hu hub
        have humem : u ∈ vs.filter (fun v => !v.isBaseline) :=
          List.mem_filter.2 ⟨hu, by simp [hub]⟩
        rw [hfil] at humem
        rcases List.mem_cons.1 humem with h1 | h1
        · rw [h1]
          exact (scanMinBy_le (fun v => v.performance.avgQualityScore) c cs).1
        · exact (scanMinBy_le (fun v => v.performance.avgQualityScore) c cs).2 u h1
      · rw [List.length_erase_of_mem hmemV]
        omega

/-- Witness for C6's amended statement, at the prune scenario population. -/
theorem C6_prune_spec_witness :
    ((pruneList listC6).count vBase6 = listC6.count vBase6) ∧
    ∃ w, w ∈ listC6 ∧ w.isBaseline = false ∧
      (∀ u ∈ listC6, u.isBaseline = false →
        w.performance.avgQualityScore ≤ u.performance.avgQualityScore) ∧
      pruneList listC6 = listC6.erase w ∧ (pruneList listC6).length + 1 = listC6.length :=
  ⟨(C6_prune_spec listC6).2.1 vBase6 rfl,
   (C6_prune_spec listC6).2.2 (of_decide_eq_true (by with_unfolding_all rfl))
     (of_decide_eq_true (by with_unfolding_all rfl))⟩

/-- Claim C7, amended: under the reactive strategy the director is selected
exactly when an intervention condition fires or the history is empty (the
source starts an empty conversation with the director); otherwise the
selection alternates `boke` and `tsukkomi`, with a random pick after a
director turn. -/
theorem C7_director_iff (ctx : ConversationContext) (rand : ℚ) :
    reactiveSelectSpeaker (scmAnalyzeConversation ctx) rand = .director ↔
      (shouldDirectorIntervene (scmAnalyzeConversation ctx) = true ∨ ctx.history = []) := by
  by_cases hI : shouldDirectorIntervene (scmAnalyzeConversation ctx) = true
  · constructor
    · intro _
      exact Or.inl hI
    · intro _
      unfold reactiveSelectSpeaker
      rw [if_pos hI]
  · have hsel : reactiveSelectSpeaker (scmAnalyzeConversation ctx) rand =
        match (scmAnalyzeConversation ctx).lastSpeaker with
        | some .boke => .tsukkomi
        | some .tsukkomi => .boke
        | some .director => if rand > 1/2 then .boke else .tsukkomi
        | none => .director := by
      unfold reactiveSelectSpeaker
      rw [if_neg hI]
    have hlast : (scmAnalyzeConversation ctx).lastSpeaker =
        (ctx.history.getLast?).map (fun m => m.who) := rfl
    constructor
    · intro hd
      right
      rw [hsel, hlast] at hd
      cases hg : ctx.history.getLast? with
      | none => exact List.getLast?_eq_none_iff.1 hg
      | some m =>
        rw [hg] at hd
        dsimp only [Option.map] at hd
        exfalso
        cases hw : m.who <;> rw [hw] at hd <;> dsimp only at hd
        · exact RoleKey.noConfusion hd
        · exact RoleKey.noConfusion hd
        · by_cases hr : rand > 1/2
          · rw [if_pos hr] at hd
            exact RoleKey.noConfusion hd
          · rw [if_neg hr] at hd
            exact RoleKey.noConfusion hd
    · intro hd
      rcases hd with hd | hd
      · exact absurd hd hI
      · rw [hsel, hlast, hd]
        rfl

/-- Witness for C7's amended statement: on an empty history the director is
selected. -/
theorem C7_director_iff_witness :
    reactiveSelectSpeaker (scmAnalyzeConversation ⟨"topic", []⟩) 1 = .director :=
  (C7_director_iff ⟨"topic", []⟩ 1).2 (Or.inr rfl)
